import Mathlib

/-!
Verification development for the flowerpower-skill utility scripts.

The repository consists of four Python command-line scripts
(`init_project.py`, `create_pipeline.py`, `list_pipelines.py`,
`run_pipeline.py`).  This file gives a shallow embedding of the pure
content of those scripts — command-line assembly, option-structure
assembly, template rendering, conflict checking against an abstract
filesystem, and filesystem scanning — and proves the specification
claims about them.

Modelling conventions:
* Python `None`-able parameters become `Option` fields.
* Machine-level effects (actually spawning the subprocess, the OS
  filesystem) are replaced by the values the code computes: the argv
  list handed to `subprocess.run`, the keyword structure handed to
  `project.run`, and an explicit abstract filesystem state.
* The abstract filesystem tracks directories and regular files in
  separate finite tables; OS-level failure modes outside the scripts
  (permissions, a regular file occupying a directory path) are outside
  the model.
-/

/-- A JSON value, as produced by decoding the `--inputs` and
`--final-vars` flags with Python `json.loads` (objects keep insertion
order, as Python dicts do). -/
inductive PyJson where
  | null : PyJson
  | bool (b : Bool) : PyJson
  | num (n : Int) : PyJson
  | str (s : String) : PyJson
  | arr (xs : List PyJson) : PyJson
  | obj (kvs : List (String × PyJson)) : PyJson

/-- Escaping of a single character inside a JSON string, as done by
Python `json.dumps` with default options, on the fragment without
further control characters and without non-ASCII characters (the
`ensure_ascii` escapes are not exercised by these scripts). -/
def jsonEscapeChar (c : Char) : String :=
  if c = '\"' then "\\\""
  else if c = '\\' then "\\\\"
  else if c = '\n' then "\\n"
  else if c = '\t' then "\\t"
  else if c = '\r' then "\\r"
  else c.toString

/-- Escape a whole string for inclusion in JSON output. -/
def jsonEscape (s : String) : String :=
  String.join (s.data.map jsonEscapeChar)

mutual

/-- Models Python `json.dumps` with default arguments: item separator
is a comma followed by a space, key separator is a colon followed by a
space, no indentation. -/
def json_dumps : PyJson → String
  | PyJson.null => "null"
  | PyJson.bool b => if b then "true" else "false"
  | PyJson.num n => toString n
  | PyJson.str s => "\"" ++ jsonEscape s ++ "\""
  | PyJson.arr xs => "[" ++ String.intercalate ", " (json_dumps_items xs) ++ "]"
  | PyJson.obj kvs =>
      "\x7b" ++ String.intercalate ", " (json_dumps_pairs kvs) ++ "\x7d"

/-- Renders each element of a JSON array. -/
def json_dumps_items : List PyJson → List String
  | [] => []
  | x :: xs => json_dumps x :: json_dumps_items xs

/-- Renders each key/value pair of a JSON object. -/
def json_dumps_pairs : List (String × PyJson) → List String
  | [] => []
  | (k, v) :: kvs =>
      ("\"" ++ jsonEscape k ++ "\": " ++ json_dumps v) :: json_dumps_pairs kvs

end

/-- The executor types accepted by the run front end
(`run_pipeline.py`, argparse `choices` of `--executor`). -/
inductive Executor where
  | synchronous | threadpool | processpool | ray | dask
deriving DecidableEq, Repr

/-- The string form of an executor type, as written on the command
line and as stored in the options structure. -/
def Executor.toStr : Executor → String
  | .synchronous => "synchronous"
  | .threadpool => "threadpool"
  | .processpool => "processpool"
  | .ray => "ray"
  | .dask => "dask"

/-- The logging levels accepted by the run front end (argparse
`choices` of `--log-level`). -/
inductive LogLevel where
  | debug | info | warning | error | critical
deriving DecidableEq, Repr

/-- The string form of a logging level. -/
def LogLevel.toStr : LogLevel → String
  | .debug => "DEBUG"
  | .info => "INFO"
  | .warning => "WARNING"
  | .error => "ERROR"
  | .critical => "CRITICAL"

/-- A parsed run request (the Run Request of the data model): the
arguments of `run_pipeline_cli` and `run_pipeline_api` in
`run_pipeline.py` after JSON decoding.  `inputs` is a Python dict in
insertion order, `final_vars` a list of strings.  `retry_delay` is a
float in the source; no claim inspects its numeric value, so the model
carries its already-rendered decimal string `str(retry_delay)`.
`run_config` is a free-form string accepted only by the subprocess
strategy. -/
structure RunArgs where
  name : String
  base_dir : Option String
  inputs : Option (List (String × PyJson))
  final_vars : Option (List String)
  executor : Option Executor
  max_workers : Option Int
  max_retries : Option Int
  retry_delay : Option String
  log_level : Option LogLevel
  run_config : Option String

/-- Contribution of `base_dir` to the argv list
(`run_pipeline.py` line 49: `if base_dir:`; a `Path` is always truthy
when not `None`). -/
def baseDirFlagSeg (o : Option String) : List String :=
  match o with
  | some d => ["--base-dir", d]
  | none => []

/-- Contribution of `inputs` (line 52: `if inputs:`; a dict is truthy
exactly when non-empty). -/
def inputsFlagSeg (o : Option (List (String × PyJson))) : List String :=
  match o with
  | some d => if d.isEmpty then [] else ["--inputs", json_dumps (PyJson.obj d)]
  | none => []

/-- Contribution of `final_vars` (line 55: `if final_vars:`; a list is
truthy exactly when non-empty). -/
def finalVarsFlagSeg (o : Option (List String)) : List String :=
  match o with
  | some l =>
      if l.isEmpty then []
      else ["--final-vars", json_dumps (PyJson.arr (l.map PyJson.str))]
  | none => []

/-- Contribution of `executor` (line 58: `if executor:`; the enum
strings are all non-empty, so truthiness coincides with presence). -/
def executorFlagSeg (o : Option Executor) : List String :=
  match o with
  | some e => ["--executor", e.toStr]
  | none => []

/-- Contribution of `max_workers` (line 61: `if max_workers:`; an int
is truthy exactly when non-zero). -/
def maxWorkersFlagSeg (o : Option Int) : List String :=
  match o with
  | some w => if w = 0 then [] else ["--executor-max-workers", toString w]
  | none => []

/-- Contribution of `max_retries` (line 64: `if max_retries is not
None:`). -/
def maxRetriesFlagSeg (o : Option Int) : List String :=
  match o with
  | some r => ["--max-retries", toString r]
  | none => []

/-- Contribution of `retry_delay` (line 67: `if retry_delay is not
None:`; the value is rendered with `str`). -/
def retryDelayFlagSeg (o : Option String) : List String :=
  match o with
  | some s => ["--retry-delay", s]
  | none => []

/-- Contribution of `log_level` (line 70: `if log_level:`; the enum
strings are all non-empty). -/
def logLevelFlagSeg (o : Option LogLevel) : List String :=
  match o with
  | some l => ["--log-level", l.toStr]
  | none => []

/-- Contribution of `run_config` (line 73: `if run_config:`; a string
is truthy exactly when non-empty). -/
def runConfigFlagSeg (o : Option String) : List String :=
  match o with
  | some s => if s = "" then [] else ["--run-config", s]
  | none => []

/-- The argv list built by `run_pipeline_cli` (`run_pipeline.py` lines
47-76) and handed to `subprocess.run`. -/
def run_pipeline_cli_cmd (a : RunArgs) : List String :=
  ["flowerpower", "pipeline", "run", a.name]
    ++ baseDirFlagSeg a.base_dir
    ++ inputsFlagSeg a.inputs
    ++ finalVarsFlagSeg a.final_vars
    ++ executorFlagSeg a.executor
    ++ maxWorkersFlagSeg a.max_workers
    ++ maxRetriesFlagSeg a.max_retries
    ++ retryDelayFlagSeg a.retry_delay
    ++ logLevelFlagSeg a.log_level
    ++ runConfigFlagSeg a.run_config

/-- The `executor` entry of the options structure built by
`run_pipeline_api`: the dict with mandatory key `type` and optional key
`max_workers`. -/
structure ExecutorConfig where
  type : Executor
  max_workers : Option Int
deriving DecidableEq, Repr

/-- The `retry` entry of the options structure: optional keys
`max_retries` and `retry_delay`. -/
structure RetryConfig where
  max_retries : Option Int
  retry_delay : Option String
deriving DecidableEq, Repr

/-- The keyword-argument structure handed to `project.run` by
`run_pipeline_api`.  A field equal to `none` corresponds to the key
being absent from the Python `kwargs` dict (the code never inserts a
key with value `None`, so `Option` represents the dict exactly). -/
structure RunKwargs where
  inputs : Option (List (String × PyJson))
  final_vars : Option (List String)
  executor : Option ExecutorConfig
  retry : Option RetryConfig
  log_level : Option LogLevel

/-- The options structure assembled by `run_pipeline_api`
(`run_pipeline.py` lines 110-134).  `run_config` is not a parameter of
the API strategy and is ignored. -/
def run_pipeline_api_kwargs (a : RunArgs) : RunKwargs :=
  { inputs :=
      match a.inputs with
      | some d => if d.isEmpty then none else some d
      | none => none
    final_vars :=
      match a.final_vars with
      | some l => if l.isEmpty then none else some l
      | none => none
    executor :=
      match a.executor with
      | some e =>
          some
            { type := e
              max_workers :=
                match a.max_workers with
                | some w => if w = 0 then none else some w
                | none => none }
      | none => none
    retry :=
      if a.max_retries.isSome || a.retry_delay.isSome then
        some { max_retries := a.max_retries, retry_delay := a.retry_delay }
      else none
    log_level := a.log_level }

/-- Models `"-" in name` from `create_pipeline.py` line 230 (a
single-character substring test is a per-character test). -/
def containsHyphen (s : String) : Bool :=
  s.data.any (fun c => c = '-')

/-- Models `name.replace("-", "_")` from `create_pipeline.py` line 232
(for a single-character pattern, `str.replace` is a per-character
map). -/
def replaceHyphens (s : String) : String :=
  ⟨s.data.map (fun c => if c = '-' then '_' else c)⟩

/-- The pipeline name actually dispatched by `create_pipeline.py`
`main` (lines 229-233): if the raw name contains a hyphen, a warning is
printed and every hyphen is replaced by an underscore; otherwise the
name is passed through unchanged. -/
def create_main_name (rawName : String) : String :=
  if containsHyphen rawName then replaceHyphens rawName else rawName

/-- Whether `create_pipeline.py` `main` prints the hyphen warning. -/
def create_main_warns (rawName : String) : Bool :=
  containsHyphen rawName

/-- The argv list built by `create_pipeline` in its subprocess branch
(`create_pipeline.py` lines 144-146). -/
def create_pipeline_cmd (name : String) (overwrite : Bool) : List String :=
  ["flowerpower", "pipeline", "new", name]
    ++ (if overwrite then ["--overwrite"] else [])

/-- The argv list dispatched by `create_pipeline.py` `main` through the
subprocess strategy: the normalized name is what reaches
`create_pipeline`. -/
def create_main_dispatch_cmd (rawName : String) (overwrite : Bool) : List String :=
  create_pipeline_cmd (create_main_name rawName) overwrite

/-- The argv list dispatched by `run_pipeline.py` `main` through the
subprocess branch (lines 192-204): the parsed arguments, the name
included, are forwarded to `run_pipeline_cli` unchanged — `main`
performs no name normalization. -/
def run_main_cli_dispatch (args : RunArgs) : List String :=
  run_pipeline_cli_cmd args

/-- The outcome of one invocation of `run_pipeline.py` `main`. -/
inductive MainOutcome where
  | ok : MainOutcome
  | caughtError (msg : String) : MainOutcome
  | uncaught (msg : String) : MainOutcome
deriving DecidableEq, Repr

/-- The process exit code produced by each outcome: `ok` falls off the
end of `main` (exit 0); `caughtError` calls `sys.exit(1)` after
printing its single diagnostic line; `uncaught` is an exception
escaping `main`, for which the Python interpreter prints a traceback
and exits with code 1. -/
def main_exit_code : MainOutcome → Nat
  | MainOutcome.ok => 0
  | MainOutcome.caughtError _ => 1
  | MainOutcome.uncaught _ => 1

/-- The failures the dispatched strategy can raise inside the `try`
block of `main`: `subprocess.CalledProcessError`, or any other
exception. -/
inductive DispatchErr where
  | calledProcessError (msg : String) : DispatchErr
  | otherError (msg : String) : DispatchErr
deriving DecidableEq, Repr

/-- Models `json.loads(raw) if raw else None` from `run_pipeline.py`
lines 174-175, parameterized by `jsonLoads`, which stands for Python
`json.loads` (returning the decoded value, or the
`json.JSONDecodeError` message on invalid JSON).  An absent or empty
flag string is not decoded at all. -/
def parse_json_flag (jsonLoads : String → Except String PyJson)
    (raw : Option String) : Except String (Option PyJson) :=
  match raw with
  | none => Except.ok none
  | some s => if s = "" then Except.ok none else (jsonLoads s).map some

/-- Control flow of `run_pipeline.py` `main` (lines 171-211) after
argument parsing, as a function of the two JSON-decode results and the
result of the dispatched strategy.  Both decodes happen before the
`try` statement, so a decode failure escapes `main` uncaught; a
strategy failure inside `try` is caught and converted to a single
printed diagnostic line followed by `sys.exit(1)`. -/
def run_main_outcome (inputsRes finalVarsRes : Except String (Option PyJson))
    (dispatchRes : Except DispatchErr Unit) : MainOutcome :=
  match inputsRes with
  | Except.error e => MainOutcome.uncaught e
  | Except.ok _ =>
    match finalVarsRes with
    | Except.error e => MainOutcome.uncaught e
    | Except.ok _ =>
      match dispatchRes with
      | Except.ok _ => MainOutcome.ok
      | Except.error (DispatchErr.calledProcessError m) =>
          MainOutcome.caughtError ("Error running pipeline: " ++ m)
      | Except.error (DispatchErr.otherError m) =>
          MainOutcome.caughtError ("Error: " ++ m)

/-- Whether `s` contains `sub` as a contiguous substring. -/
def strContainsSub (s sub : String) : Bool :=
  (List.range (s.data.length + 1)).any
    (fun i => decide ((s.data.drop i).take sub.data.length = sub.data))

/-- Whether an outcome is a caught, single-line diagnostic whose text
mentions the given flag name. -/
def reportsFlagDiagnostic (o : MainOutcome) (flag : String) : Bool :=
  match o with
  | MainOutcome.caughtError m => strContainsSub m flag
  | _ => false

/-- A filesystem path, as a list of components.  `str(Path)` joins the
components with a slash. -/
abbrev FPath := List String

/-- The string form of a path (models `str` on a `pathlib.Path`). -/
def pathStr (p : FPath) : String :=
  String.intercalate "/" p

/-- Abstract filesystem state: the set of existing directories and a
table mapping each regular file to its text content. -/
structure FS where
  dirs : List FPath
  files : List (FPath × String)
deriving DecidableEq, Repr

/-- Whether a regular file exists at `p`. -/
def fsExistsFile (fs : FS) (p : FPath) : Bool :=
  fs.files.any (fun e => decide (e.1 = p))

/-- Models `Path.exists`: true when either a directory or a regular
file occupies the path. -/
def fsExists (fs : FS) (p : FPath) : Bool :=
  fs.dirs.any (fun d => decide (d = p)) || fsExistsFile fs p

/-- Models `Path.read_text`: the content of the regular file at `p`,
when present. -/
def fsRead (fs : FS) (p : FPath) : Option String :=
  (fs.files.find? (fun e => decide (e.1 = p))).map (fun e => e.2)

/-- Models `Path.write_text`: creates the file or fully replaces its
prior content. -/
def fsWrite (fs : FS) (p : FPath) (c : String) : FS :=
  { dirs := fs.dirs, files := (p, c) :: fs.files.filter (fun e => decide (e.1 ≠ p)) }

/-- The non-empty prefixes of a path: the path itself and all its
ancestors. -/
def pathPrefixes (p : FPath) : List FPath :=
  (List.range p.length).map (fun k => p.take (k + 1))

/-- Models `Path.mkdir(parents=True, exist_ok=True)`: the directory
and every missing ancestor come into existence; an already-existing
directory is not an error (the operation never fails in the model). -/
def mkdirParents (fs : FS) (p : FPath) : FS :=
  { dirs := pathPrefixes p ++ fs.dirs, files := fs.files }

/-- `PIPELINE_TEMPLATE.format(name=name, date=date)` from
`create_pipeline.py` lines 20-93: the rendered pipeline module text
(the doubled braces of the Python format string render as single
braces). -/
def render_module (name date : String) : String :=
  String.intercalate "\n"
    [ "# FlowerPower pipeline " ++ name
    , "# Created on " ++ date
    , ""
    , "from pathlib import Path"
    , "from hamilton.function_modifiers import parameterize"
    , ""
    , "from flowerpower.cfg import Config"
    , ""
    , "# Load pipeline parameters from conf/pipelines/" ++ name ++ ".yml"
    , "PARAMS = Config.load("
    , "    Path(__file__).parents[1], pipeline_name=\"" ++ name ++ "\""
    , ").pipeline.h_params"
    , ""
    , ""
    , "# Helper functions (prefix with underscore - not included in DAG)"
    , "def _validate_data(data: dict) -> bool:"
    , "    \"\"\"Validate input data.\"\"\""
    , "    return data is not None and len(data) > 0"
    , ""
    , ""
    , "# Pipeline functions (each becomes a node in the DAG)"
    , ""
    , "@parameterize(**PARAMS.get(\"input_config\", \x7b\"source\": \"default\"\x7d))"
    , "def load_data(source: str) -> dict:"
    , "    \"\"\"Load data from source."
    , "    "
    , "    Args:"
    , "        source: Data source identifier"
    , "        "
    , "    Returns:"
    , "        Loaded data dictionary"
    , "    \"\"\""
    , "    # TODO: Implement data loading logic"
    , "    return \x7b\"source\": source, \"data\": []\x7d"
    , ""
    , ""
    , "def validate_data(load_data: dict) -> dict:"
    , "    \"\"\"Validate loaded data."
    , "    "
    , "    Args:"
    , "        load_data: Data from load_data node"
    , "        "
    , "    Returns:"
    , "        Validated data"
    , "    \"\"\""
    , "    if not _validate_data(load_data):"
    , "        raise ValueError(\"Invalid data\")"
    , "    return load_data"
    , ""
    , ""
    , "def process_data(validate_data: dict) -> dict:"
    , "    \"\"\"Process validated data."
    , "    "
    , "    Args:"
    , "        validate_data: Data from validate_data node"
    , "        "
    , "    Returns:"
    , "        Processed data"
    , "    \"\"\""
    , "    # TODO: Implement processing logic"
    , "    return \x7b\"processed\": True, **validate_data\x7d"
    , ""
    , ""
    , "def final_output(process_data: dict) -> str:"
    , "    \"\"\"Generate final output."
    , "    "
    , "    Args:"
    , "        process_data: Data from process_data node"
    , "        "
    , "    Returns:"
    , "        Output summary string"
    , "    \"\"\""
    , "    return f\"Processed \x7blen(process_data)\x7d items\"" ] ++ "\n"

/-- `CONFIG_TEMPLATE.format(name=name)` from `create_pipeline.py`
lines 96-121: the rendered pipeline configuration text. -/
def render_config (name : String) : String :=
  String.intercalate "\n"
    [ "# Pipeline configuration for " ++ name
    , "# See references/configuration.md for all options"
    , ""
    , "params:"
    , "  input_config:"
    , "    source: \"data/input.csv\""
    , ""
    , "run:"
    , "  final_vars:"
    , "    - final_output"
    , "  "
    , "  # Executor configuration"
    , "  executor:"
    , "    type: synchronous"
    , "    # type: threadpool"
    , "    # max_workers: 4"
    , "  "
    , "  # Retry configuration"
    , "  # retry:"
    , "  #   max_retries: 3"
    , "  #   retry_delay: 1.0"
    , "  #   jitter_factor: 0.1"
    , "  "
    , "  # Logging level"
    , "  log_level: INFO" ] ++ "\n"

/-- `create_pipeline_from_template` from `create_pipeline.py` lines
163-204, in state-passing form.  `base_dir` is the already-resolved
project root (`project_path or Path.cwd()`); `date_str` is the
already-formatted timestamp (`datetime.now().strftime`).  The first
component of the result is the filesystem after the call; the second
is either the raised `FileExistsError` message or the returned pair
`(module_path, config_path)`. -/
def create_pipeline_from_template (name : String) (base_dir : FPath)
    (overwrite : Bool) (date_str : String) (fs : FS) :
    FS × Except String (FPath × FPath) :=
  let pipelines_dir := base_dir ++ ["pipelines"]
  let config_dir := base_dir ++ ["conf", "pipelines"]
  let module_path := pipelines_dir ++ [name ++ ".py"]
  let config_path := config_dir ++ [name ++ ".yml"]
  if !overwrite && fsExists fs module_path then
    (fs, Except.error ("Pipeline module already exists: " ++ pathStr module_path))
  else if !overwrite && fsExists fs config_path then
    (fs, Except.error ("Pipeline config already exists: " ++ pathStr config_path))
  else
    let fs1 := mkdirParents fs pipelines_dir
    let fs2 := mkdirParents fs1 config_dir
    let fs3 := fsWrite fs2 module_path (render_module name date_str)
    let fs4 := fsWrite fs3 config_path (render_config name)
    (fs4, Except.ok (module_path, config_path))

/-- The template-strategy dispatch performed by `create_pipeline.py`
`main` (lines 236-239): `create_pipeline_from_template` receives the
normalized name. -/
def create_main_template_dispatch (rawName : String) (base_dir : FPath)
    (overwrite : Bool) (date_str : String) (fs : FS) :
    FS × Except String (FPath × FPath) :=
  create_pipeline_from_template (create_main_name rawName) base_dir overwrite date_str fs

/-- One entry of the filesystem-scan listing (`list_pipelines.py`
lines 79-86). -/
structure PipelineInfo where
  name : String
  module : String
  config : Option String
  has_config : Bool
deriving DecidableEq, Repr

/-- Lexicographic comparison of character lists by code point: the
order Python uses to compare `str` values, hence the order of
`sorted`. -/
def charListLe : List Char → List Char → Bool
  | [], _ => true
  | _ :: _, [] => false
  | a :: as, b :: bs => if a = b then charListLe as bs else decide (a < b)

/-- The comparison used by `sorted(pipelines, key=lambda p:
p["name"])`: ordering by pipeline name, names compared as Python
compares strings. -/
def infoLe (p q : PipelineInfo) : Prop :=
  charListLe p.name.data q.name.data = true

instance : DecidableRel infoLe :=
  fun p q => inferInstanceAs (Decidable (charListLe p.name.data q.name.data = true))

instance : IsTotal PipelineInfo infoLe := by
  have key : ∀ (x y : List Char), charListLe x y = true ∨ charListLe y x = true := by
    intro x
    induction x with
    | nil => intro y; left; rfl
    | cons a as ih =>
      intro y
      cases y with
      | nil => right; rfl
      | cons b bs =>
        by_cases hab : a = b
        · subst hab
          rcases ih bs with h | h
          · left; simpa [charListLe] using h
          · right; simpa [charListLe] using h
        · have hba : ¬ b = a := fun h => hab h.symm
          rcases lt_or_gt_of_ne hab with hlt | hgt
          · left; simp [charListLe, hab, hlt]
          · right; simp [charListLe, hba, hgt]
  exact ⟨fun a b => key a.name.data b.name.data⟩

instance : IsTrans PipelineInfo infoLe := by
  have key : ∀ (x y z : List Char), charListLe x y = true → charListLe y z = true →
      charListLe x z = true := by
    intro x
    induction x with
    | nil => intro y z _ _; rfl
    | cons a as ih =>
      intro y z hxy hyz
      cases y with
      | nil => simp [charListLe] at hxy
      | cons b bs =>
        cases z with
        | nil => simp [charListLe] at hyz
        | cons c cs =>
          by_cases h1 : a = b
          · subst h1
            simp only [charListLe, if_pos rfl] at hxy
            by_cases h2 : a = c
            · subst h2
              simp only [charListLe, if_pos rfl] at hyz ⊢
              exact ih bs cs hxy hyz
            · simp only [charListLe, if_neg h2] at hyz ⊢
              exact hyz
          · simp only [charListLe, if_neg h1, decide_eq_true_eq] at hxy
            by_cases h2 : b = c
            · have hac : a < c := h2 ▸ hxy
              simp [charListLe, ne_of_lt hac, hac]
            · simp only [charListLe, if_neg h2, decide_eq_true_eq] at hyz
              have hac : a < c := lt_trans hxy hyz
              simp [charListLe, ne_of_lt hac, hac]
  exact ⟨fun a b c h1 h2 => key a.name.data b.name.data c.name.data h1 h2⟩

/-- Models `str.startswith` with a single-character prefix: the test
used for the underscore filter of the lister. -/
def pyStartsWithChar (s : String) (c : Char) : Bool :=
  decide (s.data.head? = some c)

/-- Whether a file name ends in the three characters of the `.py`
suffix: exactly the names matched by `Path.glob("*.py")`, which —
unlike the `glob` module — also matches hidden names beginning with a
dot, such as `.hidden.py` or `.py` itself. -/
def pyEndsWithPy (s : String) : Bool :=
  decide (s.data.reverse.take 3 = ['y', 'p', '.'])

/-- The index of the last dot in a name (pathlib computes it with
`str.rfind`), or `none` when the name has no dot. -/
def lastDotIdx? (l : List Char) : Option Nat :=
  match l.reverse.findIdx? (fun ch => decide (ch = '.')) with
  | some j => some (l.length - 1 - j)
  | none => none

/-- Models `Path.stem` exactly as CPython computes it: when the last
dot of the name sits at an index `i` with `0 < i < len - 1`, the stem
is the name up to that dot; otherwise (no dot, only a leading dot, or
only a trailing dot) the stem is the whole name — so the stem of
`x.py` is `x`, of `.hidden.py` is `.hidden`, and of `.py` is `.py`. -/
def pyStem (s : String) : String :=
  match lastDotIdx? s.data with
  | some i => if 0 < i ∧ i < s.data.length - 1 then ⟨s.data.take i⟩ else s
  | none => s

/-- The file name of `p` when `p` is directly inside the directory
`dir`, and `none` otherwise. -/
def childName? (dir p : FPath) : Option String :=
  if p.length = dir.length + 1 ∧ p.take dir.length = dir then p.getLast? else none

/-- `list_pipelines_filesystem` from `list_pipelines.py` lines 54-88:
returns `[]` when the `pipelines` directory does not exist; otherwise
collects every regular file directly inside it matched by
`Path.glob("*.py")` — that is, every name ending in `.py`, hidden
dot-files included — skips names beginning with an underscore, and
returns the entries sorted by name.  `base_dir` is the
already-resolved project root. -/
def list_pipelines_filesystem (fs : FS) (base_dir : FPath) : List PipelineInfo :=
  let pipelines_dir := base_dir ++ ["pipelines"]
  let config_dir := base_dir ++ ["conf", "pipelines"]
  if !fsExists fs pipelines_dir then []
  else
    let entries := fs.files.filterMap (fun e =>
      match childName? pipelines_dir e.1 with
      | some fname =>
          if !pyEndsWithPy fname then none
          else if pyStartsWithChar fname '_' then none
          else
            let name := pyStem fname
            let config_file := config_dir ++ [name ++ ".yml"]
            some { name := name
                   module := pathStr (pipelines_dir ++ [fname])
                   config :=
                     if fsExists fs config_file then some (pathStr config_file)
                     else none
                   has_config := fsExists fs config_file }
      | none => none)
    List.insertionSort infoLe entries

/-- C9: in both run-dispatch strategies, an empty inputs mapping and an
empty final_vars sequence behave exactly like absent parameters
(presence is tested by Python truthiness): no flag in the subprocess
command, no entry in the in-process options structure. -/
theorem empty_inputs_final_vars_like_absent (a : RunArgs) :
    run_pipeline_cli_cmd { a with inputs := some [] } =
      run_pipeline_cli_cmd { a with inputs := none } ∧
    run_pipeline_cli_cmd { a with final_vars := some [] } =
      run_pipeline_cli_cmd { a with final_vars := none } ∧
    run_pipeline_api_kwargs { a with inputs := some [] } =
      run_pipeline_api_kwargs { a with inputs := none } ∧
    run_pipeline_api_kwargs { a with final_vars := some [] } =
      run_pipeline_api_kwargs { a with final_vars := none } :=
  ⟨rfl, rfl, rfl, rfl⟩

/-- C3 counterexample: `max_workers = 0` is a present optional
parameter, yet the assembled subprocess command carries no flag for it
(the source tests `if max_workers:`, and `0` is falsy), refuting the
claim that every present optional parameter is appended as a distinct
flag. -/
theorem run_cli_present_max_workers_no_flag_cex :
    run_pipeline_cli_cmd
        { name := "etl", base_dir := none, inputs := none, final_vars := none,
          executor := none, max_workers := some 0, max_retries := none,
          retry_delay := none, log_level := none, run_config := none } =
      ["flowerpower", "pipeline", "run", "etl"] := by
  decide

/-- C3 (amended): flag translation for the subprocess strategy.  An
absent parameter contributes no flag; a present parameter is appended
as a distinct flag with the inputs mapping and final_vars sequence
serialized as JSON text — except that presence of `inputs`,
`final_vars`, `executor`, `max_workers`, `log_level` and `run_config`
is tested by truthiness, so a falsy present value (empty mapping or
sequence, `max_workers = 0`, empty `run_config` string) also
contributes no flag, while `max_retries` and `retry_delay` are
appended whenever not `None`.  In particular the Example-3 invocation
yields exactly the expected command. -/
theorem run_cli_flag_translation (a : RunArgs) :
    (a.inputs = none → inputsFlagSeg a.inputs = []) ∧
    (∀ d, a.inputs = some d → d ≠ [] →
      inputsFlagSeg a.inputs = ["--inputs", json_dumps (PyJson.obj d)]) ∧
    (a.final_vars = none → finalVarsFlagSeg a.final_vars = []) ∧
    (∀ l, a.final_vars = some l → l ≠ [] →
      finalVarsFlagSeg a.final_vars =
        ["--final-vars", json_dumps (PyJson.arr (l.map PyJson.str))]) ∧
    (a.executor = none → executorFlagSeg a.executor = []) ∧
    (∀ e, a.executor = some e →
      executorFlagSeg a.executor = ["--executor", e.toStr]) ∧
    (a.max_workers = none → maxWorkersFlagSeg a.max_workers = []) ∧
    (∀ w, a.max_workers = some w → w ≠ 0 →
      maxWorkersFlagSeg a.max_workers = ["--executor-max-workers", toString w]) ∧
    (a.max_retries = none → maxRetriesFlagSeg a.max_retries = []) ∧
    (∀ r, a.max_retries = some r →
      maxRetriesFlagSeg a.max_retries = ["--max-retries", toString r]) ∧
    (a.retry_delay = none → retryDelayFlagSeg a.retry_delay = []) ∧
    (∀ s, a.retry_delay = some s →
      retryDelayFlagSeg a.retry_delay = ["--retry-delay", s]) ∧
    (a.log_level = none → logLevelFlagSeg a.log_level = []) ∧
    (∀ l, a.log_level = some l →
      logLevelFlagSeg a.log_level = ["--log-level", l.toStr]) ∧
    (a.run_config = none → runConfigFlagSeg a.run_config = []) ∧
    (∀ s, a.run_config = some s → s ≠ "" →
      runConfigFlagSeg a.run_config = ["--run-config", s]) ∧
    run_pipeline_cli_cmd
        { name := "etl", base_dir := none,
          inputs := some [("key", PyJson.str "value")],
          final_vars := some ["output_a", "output_b"], executor := none,
          max_workers := none, max_retries := none, retry_delay := none,
          log_level := none, run_config := none } =
      ["flowerpower", "pipeline", "run", "etl",
       "--inputs", "\x7b\"key\": \"value\"\x7d",
       "--final-vars", "[\"output_a\", \"output_b\"]"] := by
  refine ⟨fun h => by simp [inputsFlagSeg, h],
    fun d hd hne => ?_,
    fun h => by simp [finalVarsFlagSeg, h],
    fun l hl hne => ?_,
    fun h => by simp [executorFlagSeg, h],
    fun e he => by simp [executorFlagSeg, he],
    fun h => by simp [maxWorkersFlagSeg, h],
    fun w hw hne => by simp [maxWorkersFlagSeg, hw, hne],
    fun h => by simp [maxRetriesFlagSeg, h],
    fun r hr => by simp [maxRetriesFlagSeg, hr],
    fun h => by simp [retryDelayFlagSeg, h],
    fun s hs => by simp [retryDelayFlagSeg, hs],
    fun h => by simp [logLevelFlagSeg, h],
    fun l hl => by simp [logLevelFlagSeg, hl],
    fun h => by simp [runConfigFlagSeg, h],
    fun s hs hne => by simp [runConfigFlagSeg, hs, hne],
    by decide⟩
  · cases d with
    | nil => exact absurd rfl hne
    | cons x xs => simp [inputsFlagSeg, hd]
  · cases l with
    | nil => exact absurd rfl hne
    | cons x xs => simp [finalVarsFlagSeg, hl]

/-- Witness for `run_cli_flag_translation`: at the Example-3 inputs
mapping, the present, truthy `inputs` parameter yields its distinct
flag with the JSON serialization. -/
theorem run_cli_flag_translation_witness :
    inputsFlagSeg (some [("key", PyJson.str "value")]) =
      ["--inputs", json_dumps (PyJson.obj [("key", PyJson.str "value")])] :=
  (run_cli_flag_translation
      { name := "etl", base_dir := none,
        inputs := some [("key", PyJson.str "value")], final_vars := none,
        executor := none, max_workers := none, max_retries := none,
        retry_delay := none, log_level := none,
        run_config := none }).2.1 [("key", PyJson.str "value")] rfl
    (List.cons_ne_nil _ _)

/-- C4: in the in-process strategy, the options structure carries an
executor entry (of shape type plus optional max_workers) exactly when
the executor parameter is present, a retry entry exactly when at least
one of max_retries and retry_delay is present, and absent top-level
parameters are omitted entirely (the code never inserts a key with a
null or empty value). -/
theorem run_api_options_assembly (a : RunArgs) :
    ((run_pipeline_api_kwargs a).executor.isSome = a.executor.isSome) ∧
    ((run_pipeline_api_kwargs a).retry.isSome =
      (a.max_retries.isSome || a.retry_delay.isSome)) ∧
    (∀ e, a.executor = some e →
      (run_pipeline_api_kwargs a).executor =
        some { type := e,
               max_workers :=
                 match a.max_workers with
                 | some w => if w = 0 then none else some w
                 | none => none }) ∧
    ((run_pipeline_api_kwargs a).retry.isSome = true →
      (run_pipeline_api_kwargs a).retry =
        some { max_retries := a.max_retries, retry_delay := a.retry_delay }) ∧
    (a.inputs = none → (run_pipeline_api_kwargs a).inputs = none) ∧
    (a.final_vars = none → (run_pipeline_api_kwargs a).final_vars = none) ∧
    (a.executor = none → (run_pipeline_api_kwargs a).executor = none) ∧
    (a.log_level = none → (run_pipeline_api_kwargs a).log_level = none) ∧
    (a.max_retries = none ∧ a.retry_delay = none →
      (run_pipeline_api_kwargs a).retry = none) := by
  refine ⟨?_, ?_, ?_, ?_, ?_, ?_, ?_, ?_, ?_⟩
  · cases hex : a.executor <;> simp [run_pipeline_api_kwargs, hex]
  · by_cases h : a.max_retries.isSome || a.retry_delay.isSome <;>
      simp [run_pipeline_api_kwargs, h]
  · intro e he
    simp [run_pipeline_api_kwargs, he]
  · intro h
    by_cases hp : a.max_retries.isSome || a.retry_delay.isSome
    · simp [run_pipeline_api_kwargs, hp]
    · simp [run_pipeline_api_kwargs, hp] at h
  · intro h
    simp [run_pipeline_api_kwargs, h]
  · intro h
    simp [run_pipeline_api_kwargs, h]
  · intro h
    simp [run_pipeline_api_kwargs, h]
  · intro h
    simp [run_pipeline_api_kwargs, h]
  · intro h
    simp [run_pipeline_api_kwargs, h.1, h.2]

/-- Witness for `run_api_options_assembly`: with max_retries present
and retry_delay absent, the retry entry exists and carries only the
present key. -/
theorem run_api_options_assembly_witness :
    (run_pipeline_api_kwargs
        { name := "etl", base_dir := none, inputs := none, final_vars := none,
          executor := none, max_workers := none, max_retries := some 3,
          retry_delay := none, log_level := none, run_config := none }).retry =
      some { max_retries := some 3, retry_delay := none } :=
  (run_api_options_assembly
      { name := "etl", base_dir := none, inputs := none, final_vars := none,
        executor := none, max_workers := none, max_retries := some 3,
        retry_delay := none, log_level := none,
        run_config := none }).2.2.2.1 rfl

/-- C2 counterexample: the run front end dispatches the hyphenated
name "my-pipe" unchanged — `run_pipeline.py` `main` performs no
normalization before dispatch, refuting the claim that every front-end
entry point normalizes hyphens to underscores. -/
theorem run_front_end_no_normalization_cex :
    run_main_cli_dispatch
        { name := "my-pipe", base_dir := none, inputs := none,
          final_vars := none, executor := none, max_workers := none,
          max_retries := none, retry_delay := none, log_level := none,
          run_config := none } =
      ["flowerpower", "pipeline", "run", "my-pipe"] ∧
    containsHyphen "my-pipe" = true ∧
    ¬ ("my_pipe" ∈
        run_main_cli_dispatch
          { name := "my-pipe", base_dir := none, inputs := none,
            final_vars := none, executor := none, max_workers := none,
            max_retries := none, retry_delay := none, log_level := none,
            run_config := none }) := by
  refine ⟨by decide, by decide, by decide⟩

/-- C2 (amended): only the create-pipeline front end normalizes a
hyphenated pipeline name, replacing every hyphen with an underscore
and emitting a warning (no failure), before dispatching to either
strategy; the run front end dispatches the supplied name unchanged, at
argv position 3, with no normalization and no warning. -/
theorem hyphen_normalization_create_only (rawName : String) (ow : Bool)
    (args : RunArgs) (base : FPath) (date : String) (fs : FS)
    (h : containsHyphen rawName = true) :
    create_main_name rawName = replaceHyphens rawName ∧
    create_main_warns rawName = true ∧
    create_main_dispatch_cmd rawName ow =
      ["flowerpower", "pipeline", "new", replaceHyphens rawName]
        ++ (if ow then ["--overwrite"] else []) ∧
    create_main_template_dispatch rawName base ow date fs =
      create_pipeline_from_template (replaceHyphens rawName) base ow date fs ∧
    (run_main_cli_dispatch args)[3]? = some args.name := by
  refine ⟨by simp [create_main_name, h], h,
    by simp [create_main_dispatch_cmd, create_pipeline_cmd, create_main_name, h],
    by simp [create_main_template_dispatch, create_main_name, h],
    by simp [run_main_cli_dispatch, run_pipeline_cli_cmd]⟩

/-- Witness for `hyphen_normalization_create_only` at the name
"my-pipe": the create front end dispatches "my_pipe", the run front
end dispatches the name as given. -/
theorem hyphen_normalization_create_only_witness :
    create_main_name "my-pipe" = replaceHyphens "my-pipe" ∧
    create_main_warns "my-pipe" = true ∧
    create_main_dispatch_cmd "my-pipe" false =
      ["flowerpower", "pipeline", "new", replaceHyphens "my-pipe"]
        ++ (if false then ["--overwrite"] else []) ∧
    create_main_template_dispatch "my-pipe" ["proj"] false "2024-01-01 00:00:00" ⟨[], []⟩ =
      create_pipeline_from_template (replaceHyphens "my-pipe") ["proj"] false
        "2024-01-01 00:00:00" ⟨[], []⟩ ∧
    (run_main_cli_dispatch
        { name := "my-pipe", base_dir := none, inputs := none,
          final_vars := none, executor := none, max_workers := none,
          max_retries := none, retry_delay := none, log_level := none,
          run_config := none })[3]? = some "my-pipe" :=
  hyphen_normalization_create_only "my-pipe" false
    { name := "my-pipe", base_dir := none, inputs := none, final_vars := none,
      executor := none, max_workers := none, max_retries := none,
      retry_delay := none, log_level := none, run_config := none }
    ["proj"] "2024-01-01 00:00:00" ⟨[], []⟩ (by decide)

/-- C1 counterexample: for the invocation `--inputs "not json"`,
Python `json.loads` fails with message "Expecting value: line 1 column
1 (char 0)"; since both decodes happen before the `try` block of
`main`, the exception escapes uncaught (traceback, exit code 1) and no
one-line diagnostic reporting the flag name "inputs" is printed,
refuting the claimed MalformedArgument reporting. -/
theorem run_invalid_json_no_diagnostic_cex :
    run_main_outcome (Except.error "Expecting value: line 1 column 1 (char 0)")
        (Except.ok none) (Except.ok ()) =
      MainOutcome.uncaught "Expecting value: line 1 column 1 (char 0)" ∧
    reportsFlagDiagnostic
        (run_main_outcome (Except.error "Expecting value: line 1 column 1 (char 0)")
          (Except.ok none) (Except.ok ())) "inputs" = false :=
  ⟨rfl, rfl⟩

/-- C1 (amended): when the string supplied for `inputs` (or
`final_vars`) is not valid JSON, the decode error escapes `main`
uncaught — the JSON decoding happens before the `try`/`except` that
maps errors to one-line diagnostics — so the process exits non-zero
via the interpreter's default traceback handler, and no diagnostic
naming the offending flag is printed. -/
theorem run_invalid_json_uncaught (jsonLoads : String → Except String PyJson)
    (s e : String) (fvRes : Except String (Option PyJson))
    (x : Option PyJson) (e2 : String) (d d2 : Except DispatchErr Unit)
    (flag : String) (hs : s ≠ "") (hl : jsonLoads s = Except.error e) :
    run_main_outcome (parse_json_flag jsonLoads (some s)) fvRes d =
      MainOutcome.uncaught e ∧
    main_exit_code (run_main_outcome (parse_json_flag jsonLoads (some s)) fvRes d) ≠ 0 ∧
    reportsFlagDiagnostic
        (run_main_outcome (parse_json_flag jsonLoads (some s)) fvRes d) flag = false ∧
    run_main_outcome (Except.ok x) (Except.error e2) d2 = MainOutcome.uncaught e2 := by
  have hp : parse_json_flag jsonLoads (some s) = Except.error e := by
    simp [parse_json_flag, hs, hl, Except.map]
  refine ⟨?_, ?_, ?_, rfl⟩ <;>
    simp [hp, run_main_outcome, main_exit_code, reportsFlagDiagnostic]

/-- Witness for `run_invalid_json_uncaught`: the invocation with
`--inputs "not json"` (for which Python `json.loads` reports
"Expecting value: line 1 column 1 (char 0)"). -/
theorem run_invalid_json_uncaught_witness :
    run_main_outcome
        (parse_json_flag (fun _ => Except.error "Expecting value: line 1 column 1 (char 0)")
          (some "not json"))
        (Except.ok none) (Except.ok ()) =
      MainOutcome.uncaught "Expecting value: line 1 column 1 (char 0)" ∧
    main_exit_code
        (run_main_outcome
          (parse_json_flag (fun _ => Except.error "Expecting value: line 1 column 1 (char 0)")
            (some "not json"))
          (Except.ok none) (Except.ok ())) ≠ 0 ∧
    reportsFlagDiagnostic
        (run_main_outcome
          (parse_json_flag (fun _ => Except.error "Expecting value: line 1 column 1 (char 0)")
            (some "not json"))
          (Except.ok none) (Except.ok ())) "inputs" = false ∧
    run_main_outcome (Except.ok none)
        (Except.error "Expecting value: line 1 column 1 (char 0)") (Except.ok ()) =
      MainOutcome.uncaught "Expecting value: line 1 column 1 (char 0)" :=
  run_invalid_json_uncaught
    (fun _ => Except.error "Expecting value: line 1 column 1 (char 0)")
    "not json" "Expecting value: line 1 column 1 (char 0)" (Except.ok none)
    none "Expecting value: line 1 column 1 (char 0)" (Except.ok ()) (Except.ok ())
    "inputs" (by decide) rfl

lemma find?_filter_key_ne (l : List (FPath × String)) (p q : FPath) (h : q ≠ p) :
    (l.filter (fun e => decide (e.1 ≠ p))).find? (fun e => decide (e.1 = q)) =
      l.find? (fun e => decide (e.1 = q)) := by
  induction l with
  | nil => rfl
  | cons a l ih =>
    simp only [List.filter_cons, List.find?_cons]
    by_cases hap : a.1 = p
    · have h2 : decide (a.1 = q) = false := by
        simp only [decide_eq_false_iff_not]
        exact fun hq => h (hq ▸ hap)
      have h1 : decide (a.1 ≠ p) = false := by simp [hap]
      rw [h1, h2]
      simpa using ih
    · have h1 : decide (a.1 ≠ p) = true := by simp [hap]
      rw [h1]
      simp only [if_true]
      rw [List.find?_cons]
      cases hq : decide (a.1 = q)
      · simpa using ih
      · simp

lemma fsRead_fsWrite_self (fs : FS) (p : FPath) (c : String) :
    fsRead (fsWrite fs p c) p = some c := by
  simp [fsRead, fsWrite, List.find?_cons]

lemma fsRead_fsWrite_ne (fs : FS) (p q : FPath) (c : String) (h : q ≠ p) :
    fsRead (fsWrite fs p c) q = fsRead fs q := by
  unfold fsRead fsWrite
  rw [List.find?_cons]
  have h2 : (decide ((p, c).1 = q)) = false := by
    simp only [decide_eq_false_iff_not]
    exact fun hq => h hq.symm
  rw [h2]
  rw [find?_filter_key_ne fs.files p q h]

lemma fsExistsFile_eq_isSome (fs : FS) (p : FPath) :
    fsExistsFile fs p = (fsRead fs p).isSome := by
  show fs.files.any _ = _
  unfold fsRead
  induction fs.files with
  | nil => rfl
  | cons a l ih =>
    by_cases hap : a.1 = p <;> simp [List.find?_cons, hap, ih]

lemma mem_pathPrefixes_self (p : FPath) (h : p ≠ []) : p ∈ pathPrefixes p := by
  unfold pathPrefixes
  have hl : 0 < p.length := List.length_pos.mpr h
  refine List.mem_map.mpr ⟨p.length - 1, List.mem_range.mpr (by omega), ?_⟩
  have he : p.length - 1 + 1 = p.length := by omega
  rw [he, List.take_length]

lemma module_config_path_ne (base : FPath) (n m : String) :
    ¬ (base ++ ["conf", "pipelines", m] = base ++ ["pipelines", n]) := by
  intro h
  have hlen := congrArg List.length h
  simp [List.length_append] at hlen

/-- C6: with overwrite enabled, scaffolding always succeeds whatever
the prior filesystem state: both parent directories exist afterwards
(creating them never fails), both rendered texts are written, any
prior content is fully replaced, both paths are returned, and reading
each file back returns exactly the rendered text. -/
theorem scaffold_overwrite_roundtrip (name : String) (base : FPath)
    (date : String) (fs : FS) :
    (create_pipeline_from_template name base true date fs).2 =
      Except.ok (base ++ ["pipelines", name ++ ".py"],
        base ++ ["conf", "pipelines", name ++ ".yml"]) ∧
    (base ++ ["pipelines"]) ∈ (create_pipeline_from_template name base true date fs).1.dirs ∧
    (base ++ ["conf", "pipelines"]) ∈
      (create_pipeline_from_template name base true date fs).1.dirs ∧
    fsRead (create_pipeline_from_template name base true date fs).1
        (base ++ ["pipelines", name ++ ".py"]) = some (render_module name date) ∧
    fsRead (create_pipeline_from_template name base true date fs).1
        (base ++ ["conf", "pipelines", name ++ ".yml"]) = some (render_config name) := by
  refine ⟨by simp [create_pipeline_from_template], ?_, ?_, ?_, ?_⟩
  · simp [create_pipeline_from_template, fsWrite, mkdirParents]
    exact Or.inr (Or.inl (mem_pathPrefixes_self _ (by simp)))
  · simp [create_pipeline_from_template, fsWrite, mkdirParents]
    exact Or.inl (mem_pathPrefixes_self _ (by simp))
  · have hne : (base ++ ["pipelines", name ++ ".py"]) ≠
        (base ++ ["conf", "pipelines", name ++ ".yml"]) :=
      fun hh => module_config_path_ne base (name ++ ".py") (name ++ ".yml") hh.symm
    simp only [create_pipeline_from_template]
    simp only [Bool.not_true, Bool.false_and, Bool.false_eq_true, if_false,
      List.append_assoc, List.cons_append, List.nil_append]
    rw [fsRead_fsWrite_ne _ _ _ _ hne, fsRead_fsWrite_self]
  · simp only [create_pipeline_from_template]
    simp only [Bool.not_true, Bool.false_and, Bool.false_eq_true, if_false,
      List.append_assoc, List.cons_append, List.nil_append]
    rw [fsRead_fsWrite_self]

lemma create_unfold (name : String) (base : FPath) (ow : Bool) (date : String) (fs : FS) :
    create_pipeline_from_template name base ow date fs =
      (if !ow && fsExists fs (base ++ ["pipelines", name ++ ".py"]) then
        (fs, Except.error ("Pipeline module already exists: " ++
          pathStr (base ++ ["pipelines", name ++ ".py"])))
      else if !ow && fsExists fs (base ++ ["conf", "pipelines", name ++ ".yml"]) then
        (fs, Except.error ("Pipeline config already exists: " ++
          pathStr (base ++ ["conf", "pipelines", name ++ ".yml"])))
      else
        (fsWrite
          (fsWrite
            (mkdirParents (mkdirParents fs (base ++ ["pipelines"]))
              (base ++ ["conf", "pipelines"]))
            (base ++ ["pipelines", name ++ ".py"]) (render_module name date))
          (base ++ ["conf", "pipelines", name ++ ".yml"]) (render_config name),
        Except.ok (base ++ ["pipelines", name ++ ".py"],
          base ++ ["conf", "pipelines", name ++ ".yml"]))) := by
  simp only [create_pipeline_from_template, List.append_assoc, List.cons_append,
    List.nil_append]

/-- C5: without overwrite, scaffolding fails with a FileExistsError
naming the conflicting path whenever the computed module path or
config path already exists; and whatever state a first scaffold call
leaves behind, an immediately repeated call without overwrite fails
with such a conflict error. -/
theorem scaffold_conflict (name : String) (base : FPath) (date : String) (fs : FS) :
    (fsExists fs (base ++ ["pipelines", name ++ ".py"]) = true →
      (create_pipeline_from_template name base false date fs).2 =
        Except.error ("Pipeline module already exists: " ++
          pathStr (base ++ ["pipelines", name ++ ".py"]))) ∧
    (fsExists fs (base ++ ["pipelines", name ++ ".py"]) = false →
      fsExists fs (base ++ ["conf", "pipelines", name ++ ".yml"]) = true →
      (create_pipeline_from_template name base false date fs).2 =
        Except.error ("Pipeline config already exists: " ++
          pathStr (base ++ ["conf", "pipelines", name ++ ".yml"]))) ∧
    ((create_pipeline_from_template name base false date
          (create_pipeline_from_template name base false date fs).1).2 =
        Except.error ("Pipeline module already exists: " ++
          pathStr (base ++ ["pipelines", name ++ ".py"])) ∨
      (create_pipeline_from_template name base false date
          (create_pipeline_from_template name base false date fs).1).2 =
        Except.error ("Pipeline config already exists: " ++
          pathStr (base ++ ["conf", "pipelines", name ++ ".yml"]))) := by
  simp only [create_unfold, Bool.not_false, Bool.true_and]
  by_cases hm : fsExists fs (base ++ ["pipelines", name ++ ".py"]) = true
  · refine ⟨fun _ => by simp [hm],
      fun hmf _ => by rw [hm] at hmf; exact absurd hmf (by simp),
      Or.inl (by simp [hm])⟩
  · rw [Bool.not_eq_true] at hm
    by_cases hc : fsExists fs (base ++ ["conf", "pipelines", name ++ ".yml"]) = true
    · refine ⟨fun h => by rw [hm] at h; exact absurd h (by simp),
        fun _ _ => by simp [hm, hc], Or.inr (by simp [hm, hc])⟩
    · rw [Bool.not_eq_true] at hc
      have hne : (base ++ ["pipelines", name ++ ".py"]) ≠
          (base ++ ["conf", "pipelines", name ++ ".yml"]) :=
        fun hh => module_config_path_ne base (name ++ ".py") (name ++ ".yml") hh.symm
      have hread : fsRead
          (fsWrite
            (fsWrite
              (mkdirParents (mkdirParents fs (base ++ ["pipelines"]))
                (base ++ ["conf", "pipelines"]))
              (base ++ ["pipelines", name ++ ".py"]) (render_module name date))
            (base ++ ["conf", "pipelines", name ++ ".yml"]) (render_config name))
          (base ++ ["pipelines", name ++ ".py"]) = some (render_module name date) := by
        rw [fsRead_fsWrite_ne _ _ _ _ hne, fsRead_fsWrite_self]
      have hex : fsExists
          (fsWrite
            (fsWrite
              (mkdirParents (mkdirParents fs (base ++ ["pipelines"]))
                (base ++ ["conf", "pipelines"]))
              (base ++ ["pipelines", name ++ ".py"]) (render_module name date))
            (base ++ ["conf", "pipelines", name ++ ".yml"]) (render_config name))
          (base ++ ["pipelines", name ++ ".py"]) = true := by
        simp [fsExists, fsExistsFile_eq_isSome, hread]
      refine ⟨fun h => by rw [hm] at h; exact absurd h (by simp),
        fun _ h => by rw [hc] at h; exact absurd h (by simp),
        Or.inl (by simp [hm, hc, hex])⟩

/-- Witness for `scaffold_conflict`: on a filesystem where the module
file already exists, the call without overwrite fails with a conflict
error naming a conflicting path. -/
theorem scaffold_conflict_witness :
    (create_pipeline_from_template "etl" ["proj"] false "2024-01-01 00:00:00"
        ⟨[], [(["proj", "pipelines", "etl.py"], "x")]⟩).2 =
      Except.error ("Pipeline module already exists: " ++
        pathStr (["proj"] ++ ["pipelines", "etl" ++ ".py"])) :=
  (scaffold_conflict "etl" ["proj"] "2024-01-01 00:00:00"
      ⟨[], [(["proj", "pipelines", "etl.py"], "x")]⟩).1 (by decide)

/-- C8: when scaffolding without overwrite fails with the conflict
error, the filesystem is left unchanged — the existence checks run
before any directory creation or file write, so the error path
performs no mutation. -/
theorem scaffold_conflict_leaves_fs_unchanged (name : String) (base : FPath)
    (date : String) (fs : FS) (msg : String)
    (h : (create_pipeline_from_template name base false date fs).2 = Except.error msg) :
    (create_pipeline_from_template name base false date fs).1 = fs := by
  rw [create_unfold] at h ⊢
  by_cases hm : fsExists fs (base ++ ["pipelines", name ++ ".py"]) = true
  · simp [hm]
  · rw [Bool.not_eq_true] at hm
    by_cases hc : fsExists fs (base ++ ["conf", "pipelines", name ++ ".yml"]) = true
    · simp [hm, hc]
    · rw [Bool.not_eq_true] at hc
      simp [hm, hc] at h

/-- Witness for `scaffold_conflict_leaves_fs_unchanged`: the failing
call on a filesystem holding the module file leaves that filesystem
exactly as it was. -/
theorem scaffold_conflict_leaves_fs_unchanged_witness :
    (create_pipeline_from_template "etl" ["proj"] false "2024-01-01 00:00:00"
        ⟨[], [(["proj", "pipelines", "etl.py"], "x")]⟩).1 =
      ⟨[], [(["proj", "pipelines", "etl.py"], "x")]⟩ :=
  scaffold_conflict_leaves_fs_unchanged "etl" ["proj"] "2024-01-01 00:00:00"
    ⟨[], [(["proj", "pipelines", "etl.py"], "x")]⟩
    "Pipeline module already exists: proj/pipelines/etl.py" rfl

lemma head?_take_ne (l : List Char) (c : Char) (n : Nat)
    (h : decide (l.head? = some c) = false) :
    decide ((l.take n).head? = some c) = false := by
  cases l with
  | nil => cases n <;> simp
  | cons a t =>
    cases n with
    | zero => simp
    | succ m => simpa using h

lemma pyStartsWithChar_pyStem (s : String) (c : Char)
    (h : pyStartsWithChar s c = false) :
    pyStartsWithChar (pyStem s) c = false := by
  unfold pyStem
  cases hd : lastDotIdx? s.data with
  | none => exact h
  | some i =>
    simp only [hd]
    by_cases hcond : 0 < i ∧ i < s.data.length - 1
    · rw [if_pos hcond]
      exact head?_take_ne s.data c i h
    · rw [if_neg hcond]
      exact h

/-- C7: the filesystem-scan listing never contains an entry for a
module file whose name begins with an underscore, and every returned
entry has `has_config` equal to the existence of the config file named
after the pipeline under the conf directory. -/
theorem listing_private_filter_and_has_config (fs : FS) (base : FPath)
    (p : PipelineInfo) (hp : p ∈ list_pipelines_filesystem fs base) :
    pyStartsWithChar p.name '_' = false ∧
    p.has_config = fsExists fs (base ++ ["conf", "pipelines", p.name ++ ".yml"]) := by
  unfold list_pipelines_filesystem at hp
  by_cases hex : fsExists fs (base ++ ["pipelines"]) = true
  · simp only [hex, Bool.not_true, Bool.false_eq_true, if_false] at hp
    rw [List.mem_insertionSort, List.mem_filterMap] at hp
    obtain ⟨e, _, hfe⟩ := hp
    cases hcn : childName? (base ++ ["pipelines"]) e.1 with
    | none => rw [hcn] at hfe; exact absurd hfe (by simp)
    | some fname =>
      rw [hcn] at hfe
      dsimp only at hfe
      by_cases h2 : pyEndsWithPy fname = true
      · rw [if_neg (by simp [h2])] at hfe
        by_cases h3 : pyStartsWithChar fname '_' = true
        · rw [if_pos h3] at hfe; exact absurd hfe (by simp)
        · rw [if_neg h3] at hfe
          rw [Bool.not_eq_true] at h3
          obtain rfl := Option.some.inj hfe
          refine ⟨pyStartsWithChar_pyStem fname '_' h3, ?_⟩
          simp [List.append_assoc]
      · rw [if_pos (by simp [Bool.not_eq_true] at h2; simp [h2])] at hfe
        exact absurd hfe (by simp)
  · rw [Bool.not_eq_true] at hex
    simp only [hex, Bool.not_false, if_true] at hp
    exact absurd hp (by simp)

/-- Witness for `listing_private_filter_and_has_config`: a scan of a
project holding a pipeline module, an underscore-prefixed module and a
hidden module, with no config files, yields (among others) an entry
with a non-private name and `has_config = false`. -/
theorem listing_private_filter_and_has_config_witness :
    pyStartsWithChar "etl" '_' = false ∧
    (false : Bool) =
      fsExists ⟨[["proj"], ["proj", "pipelines"]],
          [(["proj", "pipelines", "etl.py"], "m"),
           (["proj", "pipelines", "_private.py"], "p"),
           (["proj", "pipelines", ".hidden.py"], "h")]⟩
        (["proj"] ++ ["conf", "pipelines", "etl" ++ ".yml"]) :=
  listing_private_filter_and_has_config
    ⟨[["proj"], ["proj", "pipelines"]],
      [(["proj", "pipelines", "etl.py"], "m"),
       (["proj", "pipelines", "_private.py"], "p"),
       (["proj", "pipelines", ".hidden.py"], "h")]⟩
    ["proj"]
    { name := "etl", module := "proj/pipelines/etl.py", config := none,
      has_config := false }
    (by decide)

/-- C10: the filesystem-scan listing is always sorted in ascending
order by pipeline name, and when the pipelines directory does not
exist it returns the empty list rather than failing. -/
theorem listing_sorted_and_missing_dir (fs : FS) (base : FPath) :
    List.Sorted infoLe (list_pipelines_filesystem fs base) ∧
    (fsExists fs (base ++ ["pipelines"]) = false →
      list_pipelines_filesystem fs base = []) := by
  constructor
  · unfold list_pipelines_filesystem
    by_cases hex : fsExists fs (base ++ ["pipelines"]) = true
    · simp only [hex, Bool.not_true, Bool.false_eq_true, if_false]
      exact List.sorted_insertionSort infoLe _
    · rw [Bool.not_eq_true] at hex
      simp only [hex, Bool.not_false, if_true]
      exact List.sorted_nil
  · intro h
    unfold list_pipelines_filesystem
    simp only [h, Bool.not_false, if_true]

/-- Witness for `listing_sorted_and_missing_dir`: scanning an empty
filesystem, where the pipelines directory is missing, returns the
empty list. -/
theorem listing_sorted_and_missing_dir_witness :
    list_pipelines_filesystem ⟨[], []⟩ ["proj"] = [] :=
  (listing_sorted_and_missing_dir ⟨[], []⟩ ["proj"]).2 (by decide)
